import Mathlib

/-!
Verification of the osu! beatmap loader (`beatmap.py` and `beatmap/main.py`).

Conventions of the shallow embedding:
* Python `str` values are modelled as `List Char` (a Python string is a
  sequence of code points).
* Python `decimal.Decimal` values are modelled as exact rationals `ℚ`;
  every division performed by the code under consideration is exact well
  within `Decimal`'s 28-significant-digit context, so no rounding is lost.
  `Decimal` literals of the form `[±]digits[.digits]` are modelled;
  exponent notation and the special values are not used by the inputs the
  loader handles here.
* Fallible Python operations return `Except PyErr`; `PyErr` names the
  Python exception class raised by the corresponding operation.
* Python `int` is `Int` (arbitrary precision).  The bitwise operations
  used by the source (`x << n`, `x & mask` with a nonnegative literal
  mask) are given structural, kernel-computable definitions with Python's
  two's-complement semantics: `x << n = x * 2 ^ n`, and `pyAnd` extracts
  the masked bits with floor division/modulus (which agrees with two's
  complement for negative `x`).
-/

/-- Python exception classes raised by the operations the loader uses. -/
inductive PyErr where
  | valueError
  | indexError
  | divisionByZero
  | invalidOperation
  | attributeError
deriving DecidableEq, Repr

/-- Python `s.rstrip()`: remove trailing whitespace. -/
def pyRstrip (s : List Char) : List Char :=
  (s.reverse.dropWhile Char.isWhitespace).reverse

/-- Python `s.strip()`: remove leading and trailing whitespace. -/
def pyStrip (s : List Char) : List Char :=
  (pyRstrip s).dropWhile Char.isWhitespace

/-- Replace the head element of a list, if any (helper for `pySplitAll`
and for the curve-segmentation analysis). -/
def mapHead {α : Type} (f : α → α) : List α → List α
  | [] => []
  | b :: bs => f b :: bs

/-- Python `s.split(sep)` with an explicit one-character separator: split on
every occurrence, keeping empty parts; the result always has one more part
than there are separators. -/
def pySplitAll (sep : Char) : List Char → List (List Char)
  | [] => [[]]
  | c :: rest =>
      if c = sep then [] :: pySplitAll sep rest
      else mapHead (c :: ·) (pySplitAll sep rest)

/-- Python `s.split(sep, maxsplit=1)`: `none` when the separator does not
occur (so that two-name unpacking raises `ValueError`), otherwise the parts
before and after the first occurrence. -/
def pySplitFirst (sep : Char) : List Char → Option (List Char × List Char)
  | [] => none
  | c :: rest =>
      if c = sep then some ([], rest)
      else (pySplitFirst sep rest).map (fun p => (c :: p.1, p.2))

/-- Python tuple unpacking `a, b = xs` of a list into exactly two names;
any other length raises `ValueError`. -/
def unpack2 (xs : List (List Char)) : Except PyErr (List Char × List Char) :=
  match xs with
  | [a, b] => .ok (a, b)
  | _ => .error .valueError

/-- Digits-to-value helper for `pyInt`. -/
def digitsToNat (ds : List Char) : Nat :=
  ds.foldl (fun a c => 10 * a + (c.toNat - '0'.toNat)) 0

/-- Python `int(s)`: strip whitespace, optional sign, then a nonempty run
of decimal digits; anything else raises `ValueError`. -/
def pyInt (s : List Char) : Except PyErr Int :=
  let t := pyStrip s
  match t with
  | '-' :: ds =>
      if ds ≠ [] ∧ ds.all Char.isDigit then .ok (-(digitsToNat ds : Int))
      else .error .valueError
  | '+' :: ds =>
      if ds ≠ [] ∧ ds.all Char.isDigit then .ok (digitsToNat ds : Int)
      else .error .valueError
  | ds =>
      if ds ≠ [] ∧ ds.all Char.isDigit then .ok (digitsToNat ds : Int)
      else .error .valueError

/-- Python `Decimal(s)` for plain literals: strip whitespace, optional
sign, digits with at most one decimal point and at least one digit in
total; a malformed literal raises `decimal.InvalidOperation`. -/
def pyDecimal (s : List Char) : Except PyErr ℚ :=
  let t := pyStrip s
  let core : List Char → Except PyErr ℚ := fun u =>
    match pySplitAll '.' u with
    | [ip] =>
        if ip ≠ [] ∧ ip.all Char.isDigit then .ok (digitsToNat ip : ℚ)
        else .error .invalidOperation
    | [ip, fp] =>
        if (ip ≠ [] ∨ fp ≠ []) ∧ ip.all Char.isDigit ∧ fp.all Char.isDigit then
          .ok ((digitsToNat ip : ℚ) + (digitsToNat fp : ℚ) / (10 : ℚ) ^ fp.length)
        else .error .invalidOperation
    | _ => .error .invalidOperation
  match t with
  | '-' :: u => (core u).map (fun q => -q)
  | '+' :: u => core u
  | u => core u

/-- Division of `Decimal` values: exact, but division by zero raises
`decimal.DivisionByZero`. -/
def pyDiv (a b : ℚ) : Except PyErr ℚ :=
  if b = 0 then .error .divisionByZero else .ok (a / b)

/-- Python `x << n` on arbitrary-precision integers. -/
def pyShl (x : Int) (n : Nat) : Int := x * 2 ^ n

/-- Python `x >> n` on arbitrary-precision integers (arithmetic, i.e.
floor, shift). -/
def pyShr (x : Int) (n : Nat) : Int := Int.fdiv x (2 ^ n)

/-- Bit-extraction worker for `pyAnd`.  The fuel argument makes the
recursion structural; `pyAnd` passes the mask itself as fuel, which always
suffices since the mask halves at every step. -/
def pyAndAux : Nat → Int → Nat → Nat
  | 0, _, _ => 0
  | fuel + 1, x, m =>
      if m = 0 then 0
      else (x.emod 2).toNat * (m % 2) + 2 * pyAndAux fuel (x.fdiv 2) (m / 2)

/-- Python `x & m` for a nonnegative mask `m` (the only form the source
uses): two's-complement bitwise and, implemented by floor
division/modulus so that it agrees with Python for negative `x` as well. -/
def pyAnd (x : Int) (m : Nat) : Int := Int.ofNat (pyAndAux m x m)

example : pyAnd 17 139 = 1 := by decide
example : pyAnd (-1) 139 = 139 := by decide
example : pyAnd 139 139 = 139 := by decide
example : pyAnd 132 139 = 128 := by decide
example : pyAnd (pyShl 17 4) 7 = 0 := by decide
example : pyStrip " ab c ".toList = "ab c".toList := by decide
example : pySplitAll ':' "a:b:c".toList = ["a".toList, "b".toList, "c".toList] := by decide
example : pySplitFirst ':' "a:b:c".toList = some ("a".toList, "b:c".toList) := by decide
example : pyInt " -42 ".toList = .ok (-42) := by with_unfolding_all rfl
example : pyInt "".toList = .error .valueError := by with_unfolding_all rfl
example : pyDecimal "-50".toList = .ok (-50) := by with_unfolding_all rfl
example : pyDecimal "0.7".toList = .ok (7 / 10) := by with_unfolding_all rfl
example : pyDecimal "1.4".toList = .ok (14 / 10) := by with_unfolding_all rfl

/-! ## Model of `beatmap.py` (the snake_cased implementation) -/

namespace Osu

/-- Timing-effect flags, `beatmap.py` class `Effects`. -/
structure Effects where
  kiai_time : Bool
  bar_line : Bool
deriving DecidableEq, Repr

/-- Decoder `create_effects` of `beatmap.py` (lines 232–236).  The source
tests bits with a LEFT shift: `bool((x << n) & 1)`. -/
def create_effects (x : Int) : Effects :=
  { kiai_time := pyAnd (pyShl x 0) 1 != 0
    bar_line := pyAnd (pyShl x 3) 1 != 0 }

/-- Hit-sound flags, `beatmap.py` class `HitSound`. -/
structure HitSound where
  normal : Bool
  whistle : Bool
  finish : Bool
  clap : Bool
deriving DecidableEq, Repr

/-- Decoder `create_hit_sound` of `beatmap.py` (lines 314–320).  The
source tests bits with a LEFT shift: `bool((x << n) & 1)`. -/
def create_hit_sound (x : Int) : HitSound :=
  { normal := pyAnd (pyShl x 0) 1 != 0
    whistle := pyAnd (pyShl x 1) 1 != 0
    finish := pyAnd (pyShl x 2) 1 != 0
    clap := pyAnd (pyShl x 3) 1 != 0 }

/-- Enum `TimingPointSampleSet` of `beatmap.py`. -/
inductive TimingPointSampleSet where
  | DEFAULT
  | NORMAL
  | SOFT
  | DRUM
deriving DecidableEq, Repr

/-- The Python enum constructor `TimingPointSampleSet(n)`: `ValueError`
on an integer that is no member's value. -/
def TimingPointSampleSet.ofInt (n : Int) : Except PyErr TimingPointSampleSet :=
  if n = 0 then .ok .DEFAULT
  else if n = 1 then .ok .NORMAL
  else if n = 2 then .ok .SOFT
  else if n = 3 then .ok .DRUM
  else .error .valueError

/-- Hit-sample descriptor, `beatmap.py` class `HitSample` with its
dataclass defaults. -/
structure HitSample where
  normal_set : TimingPointSampleSet := .DEFAULT
  addition_set : TimingPointSampleSet := .DEFAULT
  index : Int := 0
  volume : Int := 0
  filename : List Char := []
deriving DecidableEq, Repr

/-- Decoder `create_hit_sample` of `beatmap.py` (lines 323–331): a
colon-delimited 5-tuple `normalSet:additionSet:index:volume:filename`. -/
def create_hit_sample (x : List Char) : Except PyErr HitSample :=
  match pySplitAll ':' x with
  | [normal_set, addition_set, index, volume, filename] => do
      let normal_set ← pyInt normal_set
      let addition_set ← pyInt addition_set
      let index ← pyInt index
      let volume ← pyInt volume
      let normal_set ← TimingPointSampleSet.ofInt normal_set
      let addition_set ← TimingPointSampleSet.ofInt addition_set
      .ok { normal_set, addition_set, index, volume, filename }
  | _ => .error .valueError

/-- Timing point record, `beatmap.py` class `TimingPoint`.  `time` and the
velocity fields are `Decimal` in the source, modelled as `ℚ`. -/
structure TimingPoint where
  time : ℚ
  meter : Int
  sample_set : Int
  sample_index : Int
  volume : Int
  uninherited : Bool
  effects : Effects
  beat_duration : ℚ := 0
  sv_multiplier : ℚ := 1
deriving DecidableEq, Repr

/-- Enum `HitObjectType` of `beatmap.py`. -/
inductive HitObjectType where
  | HIT_CIRCLE
  | SLIDER
  | SPINNER
  | HOLD_NOTE
deriving DecidableEq, Repr

/-- The `.value` of each `HitObjectType` member (2^0, 2^1, 2^3, 2^7). -/
def HitObjectType.value : HitObjectType → Int
  | .HIT_CIRCLE => 1
  | .SLIDER => 2
  | .SPINNER => 8
  | .HOLD_NOTE => 128

/-- The Python enum constructor `HitObjectType(n)`: `ValueError` on an
integer that is no member's value. -/
def HitObjectType.ofInt (n : Int) : Except PyErr HitObjectType :=
  if n = 1 then .ok .HIT_CIRCLE
  else if n = 2 then .ok .SLIDER
  else if n = 8 then .ok .SPINNER
  else if n = 128 then .ok .HOLD_NOTE
  else .error .valueError

/-- Enum `CurveType` of `beatmap.py` ("B", "C", "L", "P"). -/
inductive CurveType where
  | BEZIER
  | CATMULL
  | LINEAR
  | PERFECT
deriving DecidableEq, Repr

/-- The Python enum constructor `CurveType(s)`: `ValueError` on a string
that is no member's value. -/
def CurveType.ofList (s : List Char) : Except PyErr CurveType :=
  if s = "B".toList then .ok .BEZIER
  else if s = "C".toList then .ok .CATMULL
  else if s = "L".toList then .ok .LINEAR
  else if s = "P".toList then .ok .PERFECT
  else .error .valueError

/-- One curve segment, `beatmap.py` class `Curve`. -/
structure Curve where
  curve_type : CurveType
  curve_points : List (Int × Int)
deriving DecidableEq, Repr

/-- The fields shared by every `HitObject` subclass of `beatmap.py`. -/
structure HitObjectCommon where
  x : Int
  y : Int
  time : Int
  type : HitObjectType
  hit_sound : HitSound
  new_combo : Bool
  combo_to_skip : Int
  hit_sample : HitSample
deriving DecidableEq, Repr

/-- The slider-specific fields of `beatmap.py` class `Slider`.  The three
trailing fields are populated only by the resolver; `end_time` starts as
the int `0` but is assigned `time + duration` (a `Decimal`), so it is
modelled as `ℚ`; `timing_point = None` until resolution. -/
structure SliderData where
  curves : List Curve
  slides : Int
  length : ℚ
  edge_sounds : List Int
  edge_sets : List (TimingPointSampleSet × TimingPointSampleSet)
  end_time : ℚ := 0
  duration : ℚ := 0
  timing_point : Option TimingPoint := none
deriving DecidableEq, Repr

/-- The `HitObject` subclass hierarchy of `beatmap.py` (`HitCircle`,
`Slider`, `Spinner`) as a sum; hold notes never produce a record. -/
inductive HitObject where
  | circle (c : HitObjectCommon)
  | slider (c : HitObjectCommon) (s : SliderData)
  | spinner (c : HitObjectCommon) (end_time : Int)
deriving DecidableEq, Repr

/-- Attribute access `hit_object.time`. -/
def HitObject.time : HitObject → Int
  | .circle c => c.time
  | .slider c _ => c.time
  | .spinner c _ => c.time

/-- Attribute access `hit_object.type`. -/
def HitObject.type : HitObject → HitObjectType
  | .circle c => c.type
  | .slider c _ => c.type
  | .spinner c _ => c.type

/-- General settings, `beatmap.py` class `General`, with its dataclass
defaults.  Fields that the loader assigns raw ints or strings to (even
though the dataclass annotates an enum — `countdown`, `sample_set`,
`mode`, `overlay_position`) are modelled with the type the loader stores,
and the default is the corresponding member's value. -/
structure General where
  audio_filename : List Char := []
  audio_lead_in : Int := 0
  audio_hash : List Char := []
  preview_time : Int := -1
  countdown : Int := 1
  sample_set : List Char := "Normal".toList
  stack_leniency : ℚ := 7 / 10
  mode : Int := 0
  letterbox_in_breaks : Bool := false
  story_fire_in_front : Bool := true
  use_skin_sprites : Bool := false
  always_show_playfield : Bool := false
  overlay_position : List Char := "NoChange".toList
  skin_preference : List Char := []
  epilepsy_warning : Bool := false
  countdown_offset : Int := 0
  special_style : Bool := false
  widescreen_storyboard : Bool := false
  samples_match_playback_rate : Bool := false
deriving DecidableEq, Repr

/-- Editor settings, `beatmap.py` class `Editor`. -/
structure Editor where
  distance_spacing : ℚ := 1
  beat_divisor : Int := 4
  grid_size : Int := 64
  timeline_zoom : ℚ := 0
  bookmarks : List Int := []
deriving DecidableEq, Repr

/-- Metadata, `beatmap.py` class `Metadata`. -/
structure Metadata where
  title : List Char := []
  title_unicode : List Char := []
  artist : List Char := []
  artist_unicode : List Char := []
  creator : List Char := []
  version : List Char := []
  source : List Char := []
  tags : List (List Char) := []
  beatmap_id : Int := -1
  beatmap_set_id : Int := -1
deriving DecidableEq, Repr

/-- Difficulty settings, `beatmap.py` class `Difficulty`. -/
structure Difficulty where
  hp_drain_rate : ℚ := 5
  circle_size : ℚ := 5
  overall_difficulty : ℚ := 5
  approach_rate : ℚ := 5
  slider_multiplier : ℚ := 5
  slider_tick_rate : ℚ := 5
deriving DecidableEq, Repr

/-- Combo/skin colours, `beatmap.py` class `Colors`; a colour is the tuple
of the comma-separated ints of the value. -/
structure Colors where
  colors : List (List Int) := []
  slider_track_override : Option (List Int) := none
  slider_border : Option (List Int) := none
deriving DecidableEq, Repr

/-- Aggregate root, `beatmap.py` class `Beatmap`.  The `events` list is
never populated (the Events section decoder is `pass`). -/
structure Beatmap where
  general : General := {}
  editor : Editor := {}
  metadata : Metadata := {}
  difficulty : Difficulty := {}
  timing_points : List TimingPoint := []
  colors : Colors := {}
  hit_objects : List HitObject := []
deriving DecidableEq, Repr

/-- The freshly constructed `Beatmap()` the loader starts from. -/
def Beatmap.init : Beatmap := {}

/-- Enum `Section` of `beatmap.py`: the router's current-section state. -/
inductive Section where
  | GENERAL
  | EDITOR
  | METADATA
  | DIFFICULTY
  | EVENTS
  | TIMING_POINTS
  | COLORS
  | HIT_OBJECTS
deriving DecidableEq, Repr

end Osu

namespace Osu

/-- The `[General]` branch of `load` (lines 552–595): split on every
colon, unpack into exactly two names, strip both, then an `elif` chain
over the known keys (unknown keys fall through silently). -/
def handleGeneral (b : Beatmap) (line : List Char) : Except PyErr Beatmap := do
  let (key, value) ← unpack2 (pySplitAll ':' line)
  let key := pyStrip key
  let value := pyStrip value
  let g := b.general
  let g ←
    if key = "AudioFilename".toList then pure { g with audio_filename := value }
    else if key = "AudioLeadIn".toList then do
      let v ← pyInt value; pure { g with audio_lead_in := v }
    else if key = "AudioHash".toList then pure { g with audio_hash := value }
    else if key = "PreviewTime".toList then do
      let v ← pyInt value; pure { g with preview_time := v }
    else if key = "Countdown".toList then do
      let v ← pyInt value; pure { g with countdown := v }
    else if key = "SampleSet".toList then pure { g with sample_set := value }
    else if key = "StackLeniency".toList then do
      let v ← pyDecimal value; pure { g with stack_leniency := v }
    else if key = "Mode".toList then do
      let v ← pyInt value; pure { g with mode := v }
    else if key = "LetterboxInBreaks".toList then do
      let v ← pyInt value; pure { g with letterbox_in_breaks := v != 0 }
    else if key = "StoryFireInFront".toList then do
      let v ← pyInt value; pure { g with story_fire_in_front := v != 0 }
    else if key = "UseSkinSprites".toList then do
      let v ← pyInt value; pure { g with use_skin_sprites := v != 0 }
    else if key = "AlwaysShowPlayfield".toList then do
      let v ← pyInt value; pure { g with always_show_playfield := v != 0 }
    else if key = "OverlayPosition".toList then pure { g with overlay_position := value }
    else if key = "SkinPreference".toList then pure { g with skin_preference := value }
    else if key = "EpilepsyWarning".toList then do
      let v ← pyInt value; pure { g with epilepsy_warning := v != 0 }
    else if key = "CountdownOffset".toList then do
      let v ← pyInt value; pure { g with countdown_offset := v }
    else if key = "SpecialStyle".toList then do
      let v ← pyInt value; pure { g with special_style := v != 0 }
    else if key = "WidescreenStoryboard".toList then do
      let v ← pyInt value; pure { g with widescreen_storyboard := v != 0 }
    else if key = "SamplesMatchPlaybackRate".toList then do
      let v ← pyInt value; pure { g with samples_match_playback_rate := v != 0 }
    else pure g
  pure { b with general := g }

/-- The `[Editor]` branch of `load` (lines 596–608): split on every
colon, unpack into two names, NO stripping, then independent `if`
statements (not `elif`). -/
def handleEditor (b : Beatmap) (line : List Char) : Except PyErr Beatmap := do
  let (key, value) ← unpack2 (pySplitAll ':' line)
  let e := b.editor
  let e ← if key = "DistanceSpacing".toList then do
      let v ← pyDecimal value; pure { e with distance_spacing := v }
    else pure e
  let e ← if key = "BeatDivisor".toList then do
      let v ← pyInt value; pure { e with beat_divisor := v }
    else pure e
  let e ← if key = "GridSize".toList then do
      let v ← pyInt value; pure { e with grid_size := v }
    else pure e
  let e ← if key = "TimelineZoom".toList then do
      let v ← pyDecimal value; pure { e with timeline_zoom := v }
    else pure e
  let e ← if key = "Bookmarks".toList then do
      let vs ← (pySplitAll ',' value).mapM pyInt; pure { e with bookmarks := vs }
    else pure e
  pure { b with editor := e }

/-- The metadata update chain shared by every `[Metadata]` line of
`beatmap.py` (lines 615–634): independent `if` statements over the
stripped key. -/
def metadataStep (m : Metadata) (key value : List Char) : Except PyErr Metadata := do
  let m := if key = "Title".toList then { m with title := value } else m
  let m := if key = "TitleUnicode".toList then { m with title_unicode := value } else m
  let m := if key = "Artist".toList then { m with artist := value } else m
  let m := if key = "ArtistUnicode".toList then { m with artist_unicode := value } else m
  let m := if key = "Creator".toList then { m with creator := value } else m
  let m := if key = "Version".toList then { m with version := value } else m
  let m := if key = "Source".toList then { m with source := value } else m
  let m := if key = "Tags".toList then { m with tags := pySplitAll ' ' value } else m
  let m ← if key = "BeatmapID".toList then do
      let v ← pyInt value; pure { m with beatmap_id := v }
    else pure m
  let m ← if key = "BeatmapSetID".toList then do
      let v ← pyInt value; pure { m with beatmap_set_id := v }
    else pure m
  pure m

/-- The `[Metadata]` branch of `load` (lines 609–634): split on the FIRST
colon only (`maxsplit=1`, "metadata might have more than one colon"),
strip both sides, then the update chain. -/
def handleMetadata (b : Beatmap) (line : List Char) : Except PyErr Beatmap := do
  match pySplitFirst ':' line with
  | none => .error .valueError
  | some (key, value) => do
      let key := pyStrip key
      let value := pyStrip value
      let m ← metadataStep b.metadata key value
      pure { b with metadata := m }

/-- The `[Difficulty]` branch of `load` (lines 635–649): split on every
colon, unpack into two names, NO stripping, independent `if` statements. -/
def handleDifficulty (b : Beatmap) (line : List Char) : Except PyErr Beatmap := do
  let (key, value) ← unpack2 (pySplitAll ':' line)
  let d := b.difficulty
  let d ← if key = "HPDrainRate".toList then do
      let v ← pyDecimal value; pure { d with hp_drain_rate := v }
    else pure d
  let d ← if key = "CircleSize".toList then do
      let v ← pyDecimal value; pure { d with circle_size := v }
    else pure d
  let d ← if key = "OverallDifficulty".toList then do
      let v ← pyDecimal value; pure { d with overall_difficulty := v }
    else pure d
  let d ← if key = "ApproachRate".toList then do
      let v ← pyDecimal value; pure { d with approach_rate := v }
    else pure d
  let d ← if key = "SliderMultiplier".toList then do
      let v ← pyDecimal value; pure { d with slider_multiplier := v }
    else pure d
  let d ← if key = "SliderTickRate".toList then do
      let v ← pyDecimal value; pure { d with slider_tick_rate := v }
    else pure d
  pure { b with difficulty := d }

/-- The `[TimingPoints]` branch of `load` (lines 652–671): unpack the
comma-separated line into exactly eight names; an uninherited point
stores the beat length as `beat_duration`, an inherited point stores
`-100 / beat_length` as `sv_multiplier` and leaves `beat_duration` at
`Decimal()` (zero). -/
def handleTimingPoints (b : Beatmap) (line : List Char) : Except PyErr Beatmap := do
  match pySplitAll ',' line with
  | [time, beat_length, meter, sample_set, sample_index, volume, uninherited, effects] => do
      let time ← pyDecimal time
      let beat_length ← pyDecimal beat_length
      let meter ← pyInt meter
      let sample_set ← pyInt sample_set
      let sample_index ← pyInt sample_index
      let volume ← pyInt volume
      let uninheritedInt ← pyInt uninherited
      let uninherited := uninheritedInt != 0
      let effectsInt ← pyInt effects
      let effects := create_effects effectsInt
      let timing_point : TimingPoint ←
        if uninherited then
          pure { time, meter, sample_set, sample_index, volume, uninherited, effects,
                 beat_duration := beat_length }
        else do
          let sv ← pyDiv (-100) beat_length
          pure { time, meter, sample_set, sample_index, volume, uninherited, effects,
                 beat_duration := 0, sv_multiplier := sv }
      pure { b with timing_points := b.timing_points ++ [timing_point] }
  | _ => .error .valueError

/-- The `[Colours]` branch of `load` (lines 672–687). -/
def handleColors (b : Beatmap) (line : List Char) : Except PyErr Beatmap := do
  let (key, value) ← unpack2 (pySplitAll ':' line)
  let key := pyStrip key
  let value := pyStrip value
  let color ← (pySplitAll ',' value).mapM pyInt
  if ("Combo".toList).isPrefixOf key then do
    let _color_index ← pyInt (key.drop 5)
    pure { b with colors := { b.colors with colors := b.colors.colors ++ [color] } }
  else if key = "SliderTrackOverride".toList then
    pure { b with colors := { b.colors with slider_track_override := some color } }
  else if key = "SliderBorder".toList then
    pure { b with colors := { b.colors with slider_border := some color } }
  else pure b

/-- The loop body of the Bézier branch of the slider decoder (`load`,
lines 749–756): the state is `(curves, curr_curve, prev_point)`; a point
equal (componentwise, as the source compares) to the previous point closes
the current segment and becomes the first point of the next one. -/
def bezierStep (st : List Curve × List (Int × Int) × (Int × Int)) (point : Int × Int) :
    List Curve × List (Int × Int) × (Int × Int) :=
  let (curves, curr_curve, prev_point) := st
  if point.1 = prev_point.1 ∧ point.2 = prev_point.2 then
    (curves ++ [{ curve_type := .BEZIER, curve_points := curr_curve }], [point], point)
  else
    (curves, curr_curve ++ [point], point)

/-- The Bézier branch of the slider decoder (`load`, lines 744–758):
`curr_curve` starts as the hit object's own position, `prev_point` starts
as the SENTINEL `(-1, -1)`, the loop folds `bezierStep` over the
descriptor's points, and the final open segment is closed at the end. -/
def segment_bezier (pos : Int × Int) (curve_points : List (Int × Int)) : List Curve :=
  let st := curve_points.foldl bezierStep ([], [pos], (-1, -1))
  st.1 ++ [{ curve_type := .BEZIER, curve_points := st.2.1 }]

/-- Parse one `x:y` anchor of a curve descriptor (`load`, lines 718–724). -/
def parseCurvePoint (cp : List Char) : Except PyErr (Int × Int) := do
  let (px, py) ← unpack2 (pySplitAll ':' cp)
  let px ← pyInt px
  let py ← pyInt py
  pure (px, py)

/-- Parse one `normalSet:additionSet` edge set (`load`, lines 731–737). -/
def parseEdgeSet (es : List Char) :
    Except PyErr (TimingPointSampleSet × TimingPointSampleSet) := do
  let (normal_set, addition_set) ← unpack2 (pySplitAll ':' es)
  let normal_set ← pyInt normal_set
  let addition_set ← pyInt addition_set
  let normal_set ← TimingPointSampleSet.ofInt normal_set
  let addition_set ← TimingPointSampleSet.ofInt addition_set
  pure (normal_set, addition_set)

/-- The optional trailing hit-sample descriptor of a hit-object line:
`params[-1]` when any parameter is present, the all-default `HitSample()`
otherwise. -/
def lastHitSample (params : List (List Char)) : Except PyErr HitSample :=
  match params.getLast? with
  | some p => create_hit_sample p
  | none => pure {}

/-- The `[HitObjects]` branch of `load` (lines 688–781): split the line
on commas into `x, y, start_time, object_type_flag, hit_sound` and the
remaining object parameters, decode the flag fields, then build a circle,
slider or spinner; a hold-note flag (128) is explicitly skipped. -/
def handleHitObjects (b : Beatmap) (line : List Char) : Except PyErr Beatmap := do
  match pySplitAll ',' line with
  | x :: y :: start_time :: object_type_flag :: hit_sound :: object_params => do
      let x ← pyInt x
      let y ← pyInt y
      let start_time ← pyInt start_time
      let object_type_flag ← pyInt object_type_flag
      let object_type ← HitObjectType.ofInt (pyAnd object_type_flag 139)
      let new_combo := pyAnd object_type_flag (1 <<< 2) != 0
      let combo_to_skip := pyAnd (pyShl object_type_flag 4) 7
      let hit_sound ← pyInt hit_sound
      if object_type = .HIT_CIRCLE then do
        let hit_sample ← lastHitSample object_params
        pure { b with hit_objects := b.hit_objects ++
          [.circle { x, y, time := start_time, type := object_type,
                     hit_sound := create_hit_sound hit_sound, new_combo, combo_to_skip,
                     hit_sample }] }
      else if object_type = .SLIDER then
        match object_params with
        | curves :: slides :: length :: edge_sounds :: edge_sets_str :: hit_sample_rest =>
          match pySplitAll '|' curves with
          | curve_type_str :: curve_points_str => do
            let curve_type ← CurveType.ofList curve_type_str
            let curve_points ← curve_points_str.mapM parseCurvePoint
            let slides ← pyInt slides
            let length ← pyDecimal length
            let edge_sounds ← (pySplitAll '|' edge_sounds).mapM pyInt
            let edge_sets ← (pySplitAll '|' edge_sets_str).mapM parseEdgeSet
            let hit_sample ← lastHitSample hit_sample_rest
            let curves :=
              if curve_type = .BEZIER then segment_bezier (x, y) curve_points
              else [{ curve_type, curve_points := (x, y) :: curve_points }]
            pure { b with hit_objects := b.hit_objects ++
              [.slider { x, y, time := start_time, type := object_type,
                         hit_sound := create_hit_sound hit_sound, new_combo, combo_to_skip,
                         hit_sample }
                       { curves, slides, length, edge_sounds, edge_sets }] }
          | [] => .error .valueError
        | _ => .error .valueError
      else if object_type = .SPINNER then
        match object_params with
        | end_time :: hit_sample_rest => do
          let end_time ← pyInt end_time
          let hit_sample ← lastHitSample hit_sample_rest
          pure { b with hit_objects := b.hit_objects ++
            [.spinner { x, y, time := start_time, type := object_type,
                        hit_sound := create_hit_sound hit_sound, new_combo, combo_to_skip,
                        hit_sample }
                      end_time] }
        | [] => .error .valueError
      else if object_type_flag = HitObjectType.HOLD_NOTE.value then
        pure b
      else
        pure b
  | _ => .error .valueError

/-- One iteration of the line loop of `load` (lines 527–781): rstrip the
line, skip it when empty, recognise a `[...]` section header (an
unrecognised header name leaves the section state unchanged), otherwise
dispatch on the current section — and silently skip the line when no
section is active, since no branch of the `if`/`elif` chain matches. -/
def processLine (st : Option Section × Beatmap) (rawLine : List Char) :
    Except PyErr (Option Section × Beatmap) := do
  let (sec, b) := st
  let line := pyRstrip rawLine
  if line.length = 0 then pure (sec, b)
  else if line.head? = some '[' then
    let section_text := (line.drop 1).dropLast
    let sec :=
      if section_text = "General".toList then some Section.GENERAL
      else if section_text = "Editor".toList then some Section.EDITOR
      else if section_text = "Metadata".toList then some Section.METADATA
      else if section_text = "Difficulty".toList then some Section.DIFFICULTY
      else if section_text = "Events".toList then some Section.EVENTS
      else if section_text = "TimingPoints".toList then some Section.TIMING_POINTS
      else if section_text = "Colours".toList then some Section.COLORS
      else if section_text = "HitObjects".toList then some Section.HIT_OBJECTS
      else sec
    pure (sec, b)
  else
    match sec with
    | some .GENERAL => (some .GENERAL, ·) <$> handleGeneral b line
    | some .EDITOR => (some .EDITOR, ·) <$> handleEditor b line
    | some .METADATA => (some .METADATA, ·) <$> handleMetadata b line
    | some .DIFFICULTY => (some .DIFFICULTY, ·) <$> handleDifficulty b line
    | some .EVENTS => pure (some .EVENTS, b)
    | some .TIMING_POINTS => (some .TIMING_POINTS, ·) <$> handleTimingPoints b line
    | some .COLORS => (some .COLORS, ·) <$> handleColors b line
    | some .HIT_OBJECTS => (some .HIT_OBJECTS, ·) <$> handleHitObjects b line
    | none => pure (none, b)

/-- The whole line loop of `load`, starting from `section = None` and a
fresh `Beatmap()`. -/
def parseLines (lines : List (List Char)) : Except PyErr (Option Section × Beatmap) :=
  lines.foldlM processLine (none, Beatmap.init)

/-- Python's stable `sorted(timing_points, key=lambda x: x.time)`. -/
def sortTPs (tps : List TimingPoint) : List TimingPoint :=
  tps.mergeSort (fun a b => decide (a.time ≤ b.time))

/-- Python's stable `sorted(hit_objects, key=lambda x: x.time)`. -/
def sortObjs (objs : List HitObject) : List HitObject :=
  objs.mergeSort (fun a b => decide (a.time ≤ b.time))

/-- Pass A worker: iterate the time-sorted timing points tracking
`last_beat_duration` (initially the int `0`); an uninherited point updates
the tracker from its own `beat_duration`, an inherited point has the
tracker written into its `beat_duration` field. -/
def propagateBeatDuration (last : ℚ) : List TimingPoint → List TimingPoint
  | [] => []
  | tp :: rest =>
      if tp.uninherited then tp :: propagateBeatDuration tp.beat_duration rest
      else { tp with beat_duration := last } :: propagateBeatDuration last rest

/-- `populate_timing_point_properties` of `beatmap.py` (lines 478–487).
The source mutates the timing-point objects shared between the original
list and its sorted copy; the mutation is modelled by replacing the list
with the updated time-sorted copy (the subsequent slider pass re-sorts by
the unchanged `time` keys, so every later observation is unaffected). -/
def populate_timing_point_properties (b : Beatmap) : Beatmap :=
  { b with timing_points := propagateBeatDuration 0 (sortTPs b.timing_points) }

/-- The `while hit_object.time >= next_time` cursor advance of
`populate_slider_properties`: `current` is `timing_points[i]` and `rest`
is the list tail `timing_points[i+1:]`, whose head's time is `next_time`
(`math.inf` when the tail is empty). -/
def advanceTP (t : ℚ) (current : TimingPoint) (rest : List TimingPoint) :
    TimingPoint × List TimingPoint :=
  match rest with
  | [] => (current, [])
  | tp :: rest' => if t ≥ tp.time then advanceTP t tp rest' else (current, rest)

/-- The per-object loop of `populate_slider_properties` (lines 497–516)
over the time-sorted hit objects, threading the monotone timing-point
cursor.  An object whose `type` field is `SLIDER` has its duration,
end time and timing-point link computed (on a non-slider record that
attribute access would raise `AttributeError`; the parser never builds
such a record). -/
def resolveObjs (slider_multiplier : ℚ) (current : TimingPoint)
    (rest : List TimingPoint) : List HitObject → Except PyErr (List HitObject)
  | [] => pure []
  | h :: objs =>
      if h.type = .SLIDER then
        match h with
        | .slider c s => do
            let (tp, rest') := advanceTP (c.time : ℚ) current rest
            let duration ← pyDiv (tp.beat_duration * s.slides * s.length)
              (tp.sv_multiplier * 100 * slider_multiplier)
            let s' := { s with end_time := (c.time : ℚ) + duration,
                               duration := duration, timing_point := some tp }
            let tail ← resolveObjs slider_multiplier tp rest' objs
            pure (.slider c s' :: tail)
        | _ => .error .attributeError
      else do
        let tail ← resolveObjs slider_multiplier current rest objs
        pure (h :: tail)

/-- `populate_slider_properties` of `beatmap.py` (lines 490–516).  Before
looking at any hit object it reads `timing_points[0]` and
`timing_points[1].time`, so a list with fewer than two timing points
raises `IndexError`.  The source mutates slider objects in place while
iterating a sorted copy; the mutation is modelled by storing the updated,
time-sorted hit-object list. -/
def populate_slider_properties (b : Beatmap) : Except PyErr Beatmap := do
  match sortTPs b.timing_points with
  | [] => .error .indexError
  | [_] => .error .indexError
  | current :: rest => do
      let objs ← resolveObjs b.difficulty.slider_multiplier current rest
        (sortObjs b.hit_objects)
      pure { b with hit_objects := objs }

/-- `load` of `beatmap.py` (lines 519–786), taking the file's lines:
run the section router over every line, then the two resolver passes. -/
def load (lines : List (List Char)) : Except PyErr Beatmap := do
  let (_, b) ← parseLines lines
  let b := populate_timing_point_properties b
  populate_slider_properties b

end Osu

/-! ## Model of `beatmap/main.py` (the on-disk-key-styled implementation) -/

namespace OsuMain

/-- Timing-effect flags, `main.py` class `Effects` (fields styled after
the on-disk keys). -/
structure Effects where
  KiaiTime : Bool
  BarLine : Bool
deriving DecidableEq, Repr

/-- Decoder `create_effects` of `main.py` (lines 231–235); identical code
to the one in `beatmap.py`, including the left-shift bit test. -/
def create_effects (x : Int) : Effects :=
  { KiaiTime := pyAnd (pyShl x 0) 1 != 0
    BarLine := pyAnd (pyShl x 3) 1 != 0 }

/-- Hit-sound flags, `main.py` class `HitSound` (same field names as in
`beatmap.py`). -/
structure HitSound where
  normal : Bool
  whistle : Bool
  finish : Bool
  clap : Bool
deriving DecidableEq, Repr

/-- Decoder `create_hit_sound` of `main.py` (lines 323–329); identical
code to the one in `beatmap.py`. -/
def create_hit_sound (x : Int) : HitSound :=
  { normal := pyAnd (pyShl x 0) 1 != 0
    whistle := pyAnd (pyShl x 1) 1 != 0
    finish := pyAnd (pyShl x 2) 1 != 0
    clap := pyAnd (pyShl x 3) 1 != 0 }

/-- Enum `TimingPointSampleSet` of `main.py`. -/
inductive TimingPointSampleSet where
  | DEFAULT
  | NORMAL
  | SOFT
  | DRUM
deriving DecidableEq, Repr

/-- The Python enum constructor `TimingPointSampleSet(n)` of `main.py`. -/
def TimingPointSampleSet.ofInt (n : Int) : Except PyErr TimingPointSampleSet :=
  if n = 0 then .ok .DEFAULT
  else if n = 1 then .ok .NORMAL
  else if n = 2 then .ok .SOFT
  else if n = 3 then .ok .DRUM
  else .error .valueError

/-- Hit-sample descriptor, `main.py` class `HitSample`. -/
structure HitSample where
  normalSet : TimingPointSampleSet := .DEFAULT
  additionSet : TimingPointSampleSet := .DEFAULT
  index : Int := 0
  volume : Int := 0
  filename : List Char := []
deriving DecidableEq, Repr

/-- Decoder `create_hit_sample` of `main.py` (lines 332–340). -/
def create_hit_sample (x : List Char) : Except PyErr HitSample :=
  match pySplitAll ':' x with
  | [normal_set, addition_set, index, volume, filename] => do
      let normal_set ← pyInt normal_set
      let addition_set ← pyInt addition_set
      let index ← pyInt index
      let volume ← pyInt volume
      let normalSet ← TimingPointSampleSet.ofInt normal_set
      let additionSet ← TimingPointSampleSet.ofInt addition_set
      .ok { normalSet, additionSet, index, volume, filename }
  | _ => .error .valueError

/-- The fields of `main.py`'s base class `TimingPoint`. -/
structure TimingPointCommon where
  time : ℚ
  meter : Int
  sampleSet : Int
  sampleIndex : Int
  volume : Int
  uninherited : Bool
  effects : Effects
deriving DecidableEq, Repr

/-- The `TimingPoint` subclass hierarchy of `main.py`: an inherited point
carries only `svMultiplier`, an uninherited point only `beatDuration`. -/
inductive TimingPoint where
  | inherited (c : TimingPointCommon) (svMultiplier : ℚ)
  | uninherited (c : TimingPointCommon) (beatDuration : ℚ)
deriving DecidableEq, Repr

/-- Enum `HitObjectType` of `main.py`. -/
inductive HitObjectType where
  | HIT_CIRCLE
  | SLIDER
  | SPINNER
  | HOLD_NOTE
deriving DecidableEq, Repr

/-- The `.value` of each `HitObjectType` member of `main.py`. -/
def HitObjectType.value : HitObjectType → Int
  | .HIT_CIRCLE => 1
  | .SLIDER => 2
  | .SPINNER => 8
  | .HOLD_NOTE => 128

/-- The Python enum constructor `HitObjectType(n)` of `main.py`. -/
def HitObjectType.ofInt (n : Int) : Except PyErr HitObjectType :=
  if n = 1 then .ok .HIT_CIRCLE
  else if n = 2 then .ok .SLIDER
  else if n = 8 then .ok .SPINNER
  else if n = 128 then .ok .HOLD_NOTE
  else .error .valueError

/-- One curve record, `main.py` class `Curve`.  The dataclass annotates
`curveType : CurveType`, but the only construction site (line 709) passes
the RAW curve-type string of the descriptor, never converting or
validating it, so the field is modelled as the string the code stores. -/
structure Curve where
  curveType : List Char
  curvePoints : List (Int × Int)
deriving DecidableEq, Repr

/-- The fields shared by every `HitObject` subclass of `main.py`. -/
structure HitObjectCommon where
  x : Int
  y : Int
  time : Int
  type : HitObjectType
  hitSound : HitSound
  newCombo : Bool
  comboToSkip : Int
  hitSample : HitSample
deriving DecidableEq, Repr

/-- The slider-specific fields of `main.py` class `Slider`: no duration
and no timing-point link exist, and `endTime` keeps its default `0`
because `main.py` has no resolver. -/
structure SliderData where
  curves : List Curve
  slides : Int
  length : ℚ
  edgeSounds : List Int
  edgeSets : List (TimingPointSampleSet × TimingPointSampleSet)
  endTime : Int := 0
deriving DecidableEq, Repr

/-- The `HitObject` subclass hierarchy of `main.py`. -/
inductive HitObject where
  | circle (c : HitObjectCommon)
  | slider (c : HitObjectCommon) (s : SliderData)
  | spinner (c : HitObjectCommon) (endTime : Int)
deriving DecidableEq, Repr

/-- General settings, `main.py` class `General` (on-disk key names); the
same loader-stored types as in the `beatmap.py` model. -/
structure General where
  AudioFilename : List Char := []
  AudioLeadIn : Int := 0
  AudioHash : List Char := []
  PreviewTime : Int := -1
  Countdown : Int := 1
  SampleSet : List Char := "Normal".toList
  StackLeniency : ℚ := 7 / 10
  Mode : Int := 0
  LetterboxInBreaks : Bool := false
  StoryFireInFront : Bool := true
  UseSkinSprites : Bool := false
  AlwaysShowPlayfield : Bool := false
  OverlayPosition : List Char := "NoChange".toList
  SkinPreference : List Char := []
  EpilepsyWarning : Bool := false
  CountdownOffset : Int := 0
  SpecialStyle : Bool := false
  WidescreenStoryboard : Bool := false
  SamplesMatchPlaybackRate : Bool := false
deriving DecidableEq, Repr

/-- Editor settings, `main.py` class `Editor`. -/
structure Editor where
  DistanceSpacing : ℚ := 1
  BeatDivisor : Int := 4
  GridSize : Int := 64
  TimelineZoom : ℚ := 0
  Bookmarks : List Int := []
deriving DecidableEq, Repr

/-- Metadata, `main.py` class `Metadata`. -/
structure Metadata where
  Title : List Char := []
  TitleUnicode : List Char := []
  Artist : List Char := []
  ArtistUnicode : List Char := []
  Creator : List Char := []
  Version : List Char := []
  Source : List Char := []
  Tags : List (List Char) := []
  BeatmapID : Int := -1
  BeatmapSetID : Int := -1
deriving DecidableEq, Repr

/-- Difficulty settings, `main.py` class `Difficulty`. -/
structure Difficulty where
  HPDrainRate : ℚ := 5
  CircleSize : ℚ := 5
  OverallDifficulty : ℚ := 5
  ApproachRate : ℚ := 5
  SliderMultiplier : ℚ := 5
  SliderTickRate : ℚ := 5
deriving DecidableEq, Repr

/-- Combo/skin colours, `main.py` class `Colors`. -/
structure Colors where
  colors : List (List Int) := []
  SliderTrackOverride : Option (List Int) := none
  SliderBorder : Option (List Int) := none
deriving DecidableEq, Repr

/-- Aggregate root, `main.py` class `Beatmap`. -/
structure Beatmap where
  general : General := {}
  editor : Editor := {}
  metadata : Metadata := {}
  difficulty : Difficulty := {}
  timingPoints : List TimingPoint := []
  colors : Colors := {}
  hit_objects : List HitObject := []
deriving DecidableEq, Repr

/-- The freshly constructed `Beatmap()` `main.py`'s loader starts from. -/
def Beatmap.init : Beatmap := {}

/-- Enum `Section` of `main.py`. -/
inductive Section where
  | GENERAL
  | EDITOR
  | METADATA
  | DIFFICULTY
  | EVENTS
  | TIMING_POINTS
  | COLORS
  | HIT_OBJECTS
deriving DecidableEq, Repr

end OsuMain

namespace OsuMain

/-- The `[General]` branch of `main.py`'s `load` (lines 516–559);
identical decoding to `beatmap.py`, storing into the on-disk-key-styled
fields. -/
def handleGeneral (b : Beatmap) (line : List Char) : Except PyErr Beatmap := do
  let (key, value) ← unpack2 (pySplitAll ':' line)
  let key := pyStrip key
  let value := pyStrip value
  let g := b.general
  let g ←
    if key = "AudioFilename".toList then pure { g with AudioFilename := value }
    else if key = "AudioLeadIn".toList then do
      let v ← pyInt value; pure { g with AudioLeadIn := v }
    else if key = "AudioHash".toList then pure { g with AudioHash := value }
    else if key = "PreviewTime".toList then do
      let v ← pyInt value; pure { g with PreviewTime := v }
    else if key = "Countdown".toList then do
      let v ← pyInt value; pure { g with Countdown := v }
    else if key = "SampleSet".toList then pure { g with SampleSet := value }
    else if key = "StackLeniency".toList then do
      let v ← pyDecimal value; pure { g with StackLeniency := v }
    else if key = "Mode".toList then do
      let v ← pyInt value; pure { g with Mode := v }
    else if key = "LetterboxInBreaks".toList then do
      let v ← pyInt value; pure { g with LetterboxInBreaks := v != 0 }
    else if key = "StoryFireInFront".toList then do
      let v ← pyInt value; pure { g with StoryFireInFront := v != 0 }
    else if key = "UseSkinSprites".toList then do
      let v ← pyInt value; pure { g with UseSkinSprites := v != 0 }
    else if key = "AlwaysShowPlayfield".toList then do
      let v ← pyInt value; pure { g with AlwaysShowPlayfield := v != 0 }
    else if key = "OverlayPosition".toList then pure { g with OverlayPosition := value }
    else if key = "SkinPreference".toList then pure { g with SkinPreference := value }
    else if key = "EpilepsyWarning".toList then do
      let v ← pyInt value; pure { g with EpilepsyWarning := v != 0 }
    else if key = "CountdownOffset".toList then do
      let v ← pyInt value; pure { g with CountdownOffset := v }
    else if key = "SpecialStyle".toList then do
      let v ← pyInt value; pure { g with SpecialStyle := v != 0 }
    else if key = "WidescreenStoryboard".toList then do
      let v ← pyInt value; pure { g with WidescreenStoryboard := v != 0 }
    else if key = "SamplesMatchPlaybackRate".toList then do
      let v ← pyInt value; pure { g with SamplesMatchPlaybackRate := v != 0 }
    else pure g
  pure { b with general := g }

/-- The `[Editor]` branch of `main.py`'s `load` (lines 560–572). -/
def handleEditor (b : Beatmap) (line : List Char) : Except PyErr Beatmap := do
  let (key, value) ← unpack2 (pySplitAll ':' line)
  let e := b.editor
  let e ← if key = "DistanceSpacing".toList then do
      let v ← pyDecimal value; pure { e with DistanceSpacing := v }
    else pure e
  let e ← if key = "BeatDivisor".toList then do
      let v ← pyInt value; pure { e with BeatDivisor := v }
    else pure e
  let e ← if key = "GridSize".toList then do
      let v ← pyInt value; pure { e with GridSize := v }
    else pure e
  let e ← if key = "TimelineZoom".toList then do
      let v ← pyDecimal value; pure { e with TimelineZoom := v }
    else pure e
  let e ← if key = "Bookmarks".toList then do
      let vs ← (pySplitAll ',' value).mapM pyInt; pure { e with Bookmarks := vs }
    else pure e
  pure { b with editor := e }

/-- The metadata update chain of `main.py`'s `[Metadata]` branch
(lines 579–598); the same keys and decoding as `beatmap.py`, stored into
the on-disk-key-styled fields. -/
def metadataStep (m : Metadata) (key value : List Char) : Except PyErr Metadata := do
  let m := if key = "Title".toList then { m with Title := value } else m
  let m := if key = "TitleUnicode".toList then { m with TitleUnicode := value } else m
  let m := if key = "Artist".toList then { m with Artist := value } else m
  let m := if key = "ArtistUnicode".toList then { m with ArtistUnicode := value } else m
  let m := if key = "Creator".toList then { m with Creator := value } else m
  let m := if key = "Version".toList then { m with Version := value } else m
  let m := if key = "Source".toList then { m with Source := value } else m
  let m := if key = "Tags".toList then { m with Tags := pySplitAll ' ' value } else m
  let m ← if key = "BeatmapID".toList then do
      let v ← pyInt value; pure { m with BeatmapID := v }
    else pure m
  let m ← if key = "BeatmapSetID".toList then do
      let v ← pyInt value; pure { m with BeatmapSetID := v }
    else pure m
  pure m

/-- The `[Metadata]` branch of `main.py`'s `load` (lines 573–598):
split on the first colon only, strip both sides, then the update chain. -/
def handleMetadata (b : Beatmap) (line : List Char) : Except PyErr Beatmap := do
  match pySplitFirst ':' line with
  | none => .error .valueError
  | some (key, value) => do
      let key := pyStrip key
      let value := pyStrip value
      let m ← metadataStep b.metadata key value
      pure { b with metadata := m }

/-- The `[Difficulty]` branch of `main.py`'s `load` (lines 599–613). -/
def handleDifficulty (b : Beatmap) (line : List Char) : Except PyErr Beatmap := do
  let (key, value) ← unpack2 (pySplitAll ':' line)
  let d := b.difficulty
  let d ← if key = "HPDrainRate".toList then do
      let v ← pyDecimal value; pure { d with HPDrainRate := v }
    else pure d
  let d ← if key = "CircleSize".toList then do
      let v ← pyDecimal value; pure { d with CircleSize := v }
    else pure d
  let d ← if key = "OverallDifficulty".toList then do
      let v ← pyDecimal value; pure { d with OverallDifficulty := v }
    else pure d
  let d ← if key = "ApproachRate".toList then do
      let v ← pyDecimal value; pure { d with ApproachRate := v }
    else pure d
  let d ← if key = "SliderMultiplier".toList then do
      let v ← pyDecimal value; pure { d with SliderMultiplier := v }
    else pure d
  let d ← if key = "SliderTickRate".toList then do
      let v ← pyDecimal value; pure { d with SliderTickRate := v }
    else pure d
  pure { b with difficulty := d }

/-- The `[TimingPoints]` branch of `main.py`'s `load` (lines 616–635):
the same eight-field decoding as `beatmap.py`, but the point is stored as
an `UninheritedTimingPoint` carrying `beatDuration` or an
`InheritedTimingPoint` carrying `svMultiplier = -100 / beat_length`. -/
def handleTimingPoints (b : Beatmap) (line : List Char) : Except PyErr Beatmap := do
  match pySplitAll ',' line with
  | [time, beat_length, meter, sample_set, sample_index, volume, uninherited, effects] => do
      let time ← pyDecimal time
      let beat_length ← pyDecimal beat_length
      let meter ← pyInt meter
      let sampleSet ← pyInt sample_set
      let sampleIndex ← pyInt sample_index
      let volume ← pyInt volume
      let uninheritedInt ← pyInt uninherited
      let uninherited := uninheritedInt != 0
      let effectsInt ← pyInt effects
      let effects := create_effects effectsInt
      let timing_point : TimingPoint ←
        if uninherited then
          pure (.uninherited { time, meter, sampleSet, sampleIndex, volume, uninherited,
                               effects } beat_length)
        else do
          let sv ← pyDiv (-100) beat_length
          pure (.inherited { time, meter, sampleSet, sampleIndex, volume, uninherited,
                             effects } sv)
      pure { b with timingPoints := b.timingPoints ++ [timing_point] }
  | _ => .error .valueError

/-- The `[Colours]` branch of `main.py`'s `load` (lines 636–651). -/
def handleColors (b : Beatmap) (line : List Char) : Except PyErr Beatmap := do
  let (key, value) ← unpack2 (pySplitAll ':' line)
  let key := pyStrip key
  let value := pyStrip value
  let color ← (pySplitAll ',' value).mapM pyInt
  if ("Combo".toList).isPrefixOf key then do
    let _color_index ← pyInt (key.drop 5)
    pure { b with colors := { b.colors with colors := b.colors.colors ++ [color] } }
  else if key = "SliderTrackOverride".toList then
    pure { b with colors := { b.colors with SliderTrackOverride := some color } }
  else if key = "SliderBorder".toList then
    pure { b with colors := { b.colors with SliderBorder := some color } }
  else pure b

/-- The optional trailing hit-sample descriptor of a `main.py` hit-object
line. -/
def lastHitSample (params : List (List Char)) : Except PyErr HitSample :=
  match params.getLast? with
  | some p => create_hit_sample p
  | none => pure {}

/-- Parse one `x:y` anchor of a `main.py` curve descriptor
(lines 680–686). -/
def parseCurvePoint (cp : List Char) : Except PyErr (Int × Int) := do
  let (px, py) ← unpack2 (pySplitAll ':' cp)
  let px ← pyInt px
  let py ← pyInt py
  pure (px, py)

/-- Parse one `normalSet:additionSet` edge set of a `main.py` slider
(lines 693–699). -/
def parseEdgeSet (es : List Char) :
    Except PyErr (TimingPointSampleSet × TimingPointSampleSet) := do
  let (normal_set, addition_set) ← unpack2 (pySplitAll ':' es)
  let normal_set ← pyInt normal_set
  let addition_set ← pyInt addition_set
  let normalSet ← TimingPointSampleSet.ofInt normal_set
  let additionSet ← TimingPointSampleSet.ofInt addition_set
  pure (normalSet, additionSet)

/-- The `[HitObjects]` branch of `main.py`'s `load` (lines 652–725).
Unlike `beatmap.py`, a slider's descriptor is stored as ONE `Curve`
carrying the raw curve-type string and the raw anchor list: the
curve-type string is never validated, the hit object's position is not
prepended, and no Bézier segmentation is performed. -/
def handleHitObjects (b : Beatmap) (line : List Char) : Except PyErr Beatmap := do
  match pySplitAll ',' line with
  | x :: y :: start_time :: object_type_flag :: hit_sound :: object_params => do
      let x ← pyInt x
      let y ← pyInt y
      let start_time ← pyInt start_time
      let object_type_flag ← pyInt object_type_flag
      let object_type ← HitObjectType.ofInt (pyAnd object_type_flag 139)
      let newCombo := pyAnd object_type_flag (1 <<< 2) != 0
      let comboToSkip := pyAnd (pyShl object_type_flag 4) 7
      let hit_sound ← pyInt hit_sound
      if object_type = .HIT_CIRCLE then do
        let hitSample ← lastHitSample object_params
        pure { b with hit_objects := b.hit_objects ++
          [.circle { x, y, time := start_time, type := object_type,
                     hitSound := create_hit_sound hit_sound, newCombo, comboToSkip,
                     hitSample }] }
      else if object_type = .SLIDER then
        match object_params with
        | curves :: slides :: length :: edge_sounds :: edge_sets_str :: hit_sample_rest =>
          match pySplitAll '|' curves with
          | curve_type_str :: curve_points_str => do
            let curvePoints ← curve_points_str.mapM parseCurvePoint
            let slides ← pyInt slides
            let length ← pyDecimal length
            let edgeSounds ← (pySplitAll '|' edge_sounds).mapM pyInt
            let edgeSets ← (pySplitAll '|' edge_sets_str).mapM parseEdgeSet
            let hitSample ← lastHitSample hit_sample_rest
            pure { b with hit_objects := b.hit_objects ++
              [.slider { x, y, time := start_time, type := object_type,
                         hitSound := create_hit_sound hit_sound, newCombo, comboToSkip,
                         hitSample }
                       { curves := [{ curveType := curve_type_str,
                                      curvePoints }],
                         slides, length, edgeSounds, edgeSets }] }
          | [] => .error .valueError
        | _ => .error .valueError
      else if object_type = .SPINNER then
        match object_params with
        | end_time :: hit_sample_rest => do
          let endTime ← pyInt end_time
          let hitSample ← lastHitSample hit_sample_rest
          pure { b with hit_objects := b.hit_objects ++
            [.spinner { x, y, time := start_time, type := object_type,
                        hitSound := create_hit_sound hit_sound, newCombo, comboToSkip,
                        hitSample }
                      endTime] }
        | [] => .error .valueError
      else if object_type_flag = HitObjectType.HOLD_NOTE.value then
        pure b
      else
        pure b
  | _ => .error .valueError

/-- One iteration of the line loop of `main.py`'s `load` (lines 491–725):
the same router as `beatmap.py`. -/
def processLine (st : Option Section × Beatmap) (rawLine : List Char) :
    Except PyErr (Option Section × Beatmap) := do
  let (sec, b) := st
  let line := pyRstrip rawLine
  if line.length = 0 then pure (sec, b)
  else if line.head? = some '[' then
    let section_text := (line.drop 1).dropLast
    let sec :=
      if section_text = "General".toList then some Section.GENERAL
      else if section_text = "Editor".toList then some Section.EDITOR
      else if section_text = "Metadata".toList then some Section.METADATA
      else if section_text = "Difficulty".toList then some Section.DIFFICULTY
      else if section_text = "Events".toList then some Section.EVENTS
      else if section_text = "TimingPoints".toList then some Section.TIMING_POINTS
      else if section_text = "Colours".toList then some Section.COLORS
      else if section_text = "HitObjects".toList then some Section.HIT_OBJECTS
      else sec
    pure (sec, b)
  else
    match sec with
    | some .GENERAL => (some .GENERAL, ·) <$> handleGeneral b line
    | some .EDITOR => (some .EDITOR, ·) <$> handleEditor b line
    | some .METADATA => (some .METADATA, ·) <$> handleMetadata b line
    | some .DIFFICULTY => (some .DIFFICULTY, ·) <$> handleDifficulty b line
    | some .EVENTS => pure (some .EVENTS, b)
    | some .TIMING_POINTS => (some .TIMING_POINTS, ·) <$> handleTimingPoints b line
    | some .COLORS => (some .COLORS, ·) <$> handleColors b line
    | some .HIT_OBJECTS => (some .HIT_OBJECTS, ·) <$> handleHitObjects b line
    | none => pure (none, b)

/-- `load` of `main.py` (lines 483–727), taking the file's lines: only
the section router runs — `main.py` has NO resolver passes, so timing
durations and slider end times are never computed. -/
def load (lines : List (List Char)) : Except PyErr Beatmap := do
  let (_, b) ← lines.foldlM processLine (none, Beatmap.init)
  pure b

end OsuMain

/-! ## Analysis helpers -/

namespace Osu

/-- Adjacent-duplicate segmentation in direct-recursion form, matching
what the source's accumulator loop computes: `adjBlocks prev pts` lists
the segments of `pts`, a new segment opening at every point
componentwise-equal to its predecessor (`prev` seeds the predecessor);
the first block is the remainder of the segment already open. -/
def adjBlocks (prev : Int × Int) : List (Int × Int) → List (List (Int × Int))
  | [] => [[]]
  | p :: rest =>
      if p.1 = prev.1 ∧ p.2 = prev.2 then [] :: mapHead (p :: ·) (adjBlocks p rest)
      else mapHead (p :: ·) (adjBlocks p rest)

lemma mapHead_mapHead {α : Type} (f g : α → α) (l : List α) :
    mapHead f (mapHead g l) = mapHead (fun x => f (g x)) l := by
  cases l <;> rfl

lemma mapHead_congr {α : Type} (f g : α → α) (l : List α) (h : ∀ x, f x = g x) :
    mapHead f l = mapHead g l := by
  cases l <;> simp [mapHead, h]

/-- Unrolling the Bézier segmentation loop: folding `bezierStep` from an
arbitrary accumulator state produces the already-closed segments followed
by the blocks of the remaining points, the still-open segment prefixed to
the first block. -/
lemma bezier_loop (pts : List (Int × Int)) :
    ∀ (curves : List Curve) (curr : List (Int × Int)) (prev : Int × Int),
      (pts.foldl bezierStep (curves, curr, prev)).1 ++
          [{ curve_type := .BEZIER,
             curve_points := (pts.foldl bezierStep (curves, curr, prev)).2.1 }] =
        curves ++ (mapHead (curr ++ ·) (adjBlocks prev pts)).map
          (fun ps => { curve_type := .BEZIER, curve_points := ps }) := by
  induction pts with
  | nil => intro curves curr prev; simp [adjBlocks, mapHead]
  | cons p rest ih =>
    intro curves curr prev
    by_cases h : p.1 = prev.1 ∧ p.2 = prev.2
    · simp only [List.foldl_cons, bezierStep, if_pos h, adjBlocks]
      rw [ih]
      simp [mapHead_mapHead, mapHead]
    · simp only [List.foldl_cons, bezierStep, if_neg h, adjBlocks, if_neg h]
      rw [ih, mapHead_mapHead]
      congr 1
      congr 1
      exact mapHead_congr _ _ _ (fun x => by simp)

end Osu

lemma dropWhile_dropWhile (p : Char → Bool) (l : List Char) :
    (l.dropWhile p).dropWhile p = l.dropWhile p := by
  induction l with
  | nil => rfl
  | cons c rest ih =>
    by_cases h : p c
    · simpa [List.dropWhile_cons, h] using ih
    · simp [List.dropWhile_cons, h]

lemma pyRstrip_pyRstrip (l : List Char) : pyRstrip (pyRstrip l) = pyRstrip l := by
  simp [pyRstrip, dropWhile_dropWhile]

lemma pyStrip_pyRstrip (l : List Char) : pyStrip (pyRstrip l) = pyStrip l := by
  simp [pyStrip, pyRstrip_pyRstrip]

lemma pyRstrip_append_last (k : List Char) (c : Char) (hc : c.isWhitespace = false)
    (v : List Char) : pyRstrip ((k ++ [c]) ++ v) = (k ++ [c]) ++ pyRstrip v := by
  simp only [pyRstrip, List.reverse_append, List.reverse_cons, List.reverse_nil,
    List.nil_append, List.dropWhile_append]
  by_cases h : (v.reverse.dropWhile Char.isWhitespace).isEmpty
  · simp [h, List.dropWhile_cons, hc, List.isEmpty_iff.mp h]
  · simp [h, List.dropWhile_cons, hc]

lemma pySplitFirst_append (k : List Char) (hk : ':' ∉ k) (v : List Char) :
    pySplitFirst ':' (k ++ ':' :: v) = some (k, v) := by
  induction k with
  | nil => simp [pySplitFirst]
  | cons c rest ih =>
    simp only [List.mem_cons, not_or] at hk
    simp [pySplitFirst, Ne.symm hk.1, ih hk.2]

lemma pySplitAll_ne_nil (sep : Char) (l : List Char) : pySplitAll sep l ≠ [] := by
  cases l with
  | nil => simp [pySplitAll]
  | cons c rest =>
    by_cases h : c = sep
    · simp [pySplitAll, h]
    · simp only [pySplitAll, if_neg h]
      cases hrec : pySplitAll sep rest with
      | nil => exact absurd hrec (by intro hh; exact pySplitAll_ne_nil sep rest hh)
      | cons b bs => simp [mapHead]

lemma length_pySplitAll (sep : Char) (l : List Char) :
    (pySplitAll sep l).length = l.count sep + 1 := by
  induction l with
  | nil => simp [pySplitAll]
  | cons c rest ih =>
    by_cases h : c = sep
    · simp [pySplitAll, h, List.count_cons, ih]
    · simp only [pySplitAll, if_neg h]
      cases hrec : pySplitAll sep rest with
      | nil => exact absurd hrec (pySplitAll_ne_nil sep rest)
      | cons b bs =>
        have := ih
        rw [hrec] at this
        simp [mapHead, List.count_cons, h, ← this]

lemma count_dropWhile_ws (sep : Char) (hsep : sep.isWhitespace = false) (l : List Char) :
    (l.dropWhile Char.isWhitespace).count sep = l.count sep := by
  induction l with
  | nil => rfl
  | cons c rest ih =>
    by_cases h : c.isWhitespace
    · have hne : c ≠ sep := by rintro rfl; rw [h] at hsep; exact absurd hsep (by simp)
      simp [List.dropWhile_cons, h, ih, List.count_cons, hne]
    · simp [List.dropWhile_cons, h]

lemma count_pyRstrip (sep : Char) (hsep : sep.isWhitespace = false) (l : List Char) :
    (pyRstrip l).count sep = l.count sep := by
  simp [pyRstrip, count_dropWhile_ws sep hsep]

lemma unpack2_length_ne (xs : List (List Char)) (h : xs.length ≠ 2) :
    unpack2 xs = .error .valueError := by
  match xs with
  | [] => rfl
  | [a] => rfl
  | [a, b] => exact absurd rfl h
  | a :: b :: c :: t => rfl

namespace Osu

example (b : Beatmap) (w : List Char) :
    handleMetadata b ("Title:".toList ++ w) =
      .ok { b with metadata := { b.metadata with title := pyStrip w } } := rfl

lemma processLine_metadata (b : Beatmap) (rawLine : List Char)
    (h0 : pyRstrip rawLine ≠ []) (h1 : (pyRstrip rawLine).head? ≠ some '[') :
    processLine (some .METADATA, b) rawLine =
      (fun b' => ((some Section.METADATA : Option Section), b')) <$>
        handleMetadata b (pyRstrip rawLine) := by
  unfold processLine
  dsimp only
  rw [if_neg (by simpa [List.length_eq_zero] using h0), if_neg h1]

end Osu

namespace Osu

lemma processLine_general (b : Beatmap) (rawLine : List Char)
    (h0 : pyRstrip rawLine ≠ []) (h1 : (pyRstrip rawLine).head? ≠ some '[') :
    processLine (some .GENERAL, b) rawLine =
      (fun b' => ((some Section.GENERAL : Option Section), b')) <$>
        handleGeneral b (pyRstrip rawLine) := by
  unfold processLine
  dsimp only
  rw [if_neg (by simpa [List.length_eq_zero] using h0), if_neg h1]

lemma processLine_editor (b : Beatmap) (rawLine : List Char)
    (h0 : pyRstrip rawLine ≠ []) (h1 : (pyRstrip rawLine).head? ≠ some '[') :
    processLine (some .EDITOR, b) rawLine =
      (fun b' => ((some Section.EDITOR : Option Section), b')) <$>
        handleEditor b (pyRstrip rawLine) := by
  unfold processLine
  dsimp only
  rw [if_neg (by simpa [List.length_eq_zero] using h0), if_neg h1]

lemma processLine_difficulty (b : Beatmap) (rawLine : List Char)
    (h0 : pyRstrip rawLine ≠ []) (h1 : (pyRstrip rawLine).head? ≠ some '[') :
    processLine (some .DIFFICULTY, b) rawLine =
      (fun b' => ((some Section.DIFFICULTY : Option Section), b')) <$>
        handleDifficulty b (pyRstrip rawLine) := by
  unfold processLine
  dsimp only
  rw [if_neg (by simpa [List.length_eq_zero] using h0), if_neg h1]

lemma metadata_title_first_colon (b : Beatmap) (v : List Char) :
    processLine (some .METADATA, b) ("Title:".toList ++ v) =
      .ok (some .METADATA, { b with metadata := { b.metadata with title := pyStrip v } }) := by
  have hr : pyRstrip ("Title:".toList ++ v) = "Title:".toList ++ pyRstrip v := by
    simpa using pyRstrip_append_last "Title".toList ':' (by decide) v
  have h0 : pyRstrip ("Title:".toList ++ v) ≠ [] := by rw [hr]; simp
  have h1 : (pyRstrip ("Title:".toList ++ v)).head? ≠ some '[' := by
    rw [hr]
    have : ("Title:".toList ++ pyRstrip v) = 'T' :: ("itle:".toList ++ pyRstrip v) := rfl
    rw [this]
    simp
  rw [processLine_metadata b _ h0 h1, hr]
  have hm : handleMetadata b ("Title:".toList ++ pyRstrip v) =
      .ok { b with metadata := { b.metadata with title := pyStrip (pyRstrip v) } } := rfl
  rw [hm, pyStrip_pyRstrip]
  rfl

lemma general_needs_one_colon (b : Beatmap) (line : List Char)
    (h0 : pyRstrip line ≠ []) (h1 : (pyRstrip line).head? ≠ some '[')
    (hc : line.count ':' ≠ 1) :
    processLine (some .GENERAL, b) line = .error .valueError := by
  have hcnt : (pySplitAll ':' (pyRstrip line)).length ≠ 2 := by
    rw [length_pySplitAll, count_pyRstrip ':' (by decide)]
    omega
  rw [processLine_general b line h0 h1]
  unfold handleGeneral
  rw [unpack2_length_ne _ hcnt]
  rfl

lemma editor_needs_one_colon (b : Beatmap) (line : List Char)
    (h0 : pyRstrip line ≠ []) (h1 : (pyRstrip line).head? ≠ some '[')
    (hc : line.count ':' ≠ 1) :
    processLine (some .EDITOR, b) line = .error .valueError := by
  have hcnt : (pySplitAll ':' (pyRstrip line)).length ≠ 2 := by
    rw [length_pySplitAll, count_pyRstrip ':' (by decide)]
    omega
  rw [processLine_editor b line h0 h1]
  unfold handleEditor
  rw [unpack2_length_ne _ hcnt]
  rfl

lemma difficulty_needs_one_colon (b : Beatmap) (line : List Char)
    (h0 : pyRstrip line ≠ []) (h1 : (pyRstrip line).head? ≠ some '[')
    (hc : line.count ':' ≠ 1) :
    processLine (some .DIFFICULTY, b) line = .error .valueError := by
  have hcnt : (pySplitAll ':' (pyRstrip line)).length ≠ 2 := by
    rw [length_pySplitAll, count_pyRstrip ':' (by decide)]
    omega
  rw [processLine_difficulty b line h0 h1]
  unfold handleDifficulty
  rw [unpack2_length_ne _ hcnt]
  rfl

end Osu

namespace Osu

lemma length_propagateBeatDuration (last : ℚ) (tps : List TimingPoint) :
    (propagateBeatDuration last tps).length = tps.length := by
  induction tps generalizing last with
  | nil => rfl
  | cons tp rest ih =>
    by_cases h : tp.uninherited <;> simp [propagateBeatDuration, h, ih]

lemma length_sortTPs (tps : List TimingPoint) : (sortTPs tps).length = tps.length := by
  simp [sortTPs, List.length_mergeSort]

end Osu

/-- Claim C10: for every input whose TimingPoints section yields fewer
than two timing points (zero or one), `load` in `beatmap.py` fails with
an uncaught index-out-of-range error — even when the input contains no
sliders — because the slider resolver unconditionally reads the first two
entries of the sorted timing-point list before examining any hit
object. -/
theorem claim_C10 (lines : List (List Char)) (st : Option Osu.Section) (b : Osu.Beatmap)
    (hp : Osu.parseLines lines = .ok (st, b)) (hl : b.timing_points.length < 2) :
    Osu.load lines = .error .indexError := by
  unfold Osu.load
  rw [hp]
  show Osu.populate_slider_properties (Osu.populate_timing_point_properties b) =
    .error .indexError
  have hlen :
      (Osu.sortTPs (Osu.populate_timing_point_properties b).timing_points).length < 2 := by
    rw [Osu.length_sortTPs]
    unfold Osu.populate_timing_point_properties
    dsimp only
    rw [Osu.length_propagateBeatDuration, Osu.length_sortTPs]
    exact hl
  unfold Osu.populate_slider_properties
  rcases h : Osu.sortTPs (Osu.populate_timing_point_properties b).timing_points with
    _ | ⟨a, _ | ⟨c, tl⟩⟩
  · rfl
  · rfl
  · rw [h] at hlen
    simp at hlen
    omega

/-- Witness for claim C10: the empty input parses to a beatmap with zero
timing points and no hit objects at all, and `load` nevertheless raises
`IndexError`. -/
theorem claim_C10_witness :
    Osu.parseLines [] = .ok ((none : Option Osu.Section), Osu.Beatmap.init) ∧
      Osu.Beatmap.init.timing_points.length < 2 ∧
      Osu.load [] = .error .indexError := by
  refine ⟨rfl, by decide, claim_C10 [] none Osu.Beatmap.init rfl (by decide)⟩

/-- Claim C1 (settled against the code): the decoders test bits with a
LEFT shift, `(x << n) & 1`, which is zero for every `n ≥ 1`; so for
`x = 2` (bit 1 set, `(2 >> 1) & 1 = 1`) the hit-sound decoder reports
whistle ABSENT, and for `x = 8` (bit 3 set, `(8 >> 3) & 1 = 1`) the
effects decoder reports first-barline-omitted ABSENT — contradicting the
claimed right-shift decoding. -/
theorem claim_C1 :
    Osu.create_hit_sound 2 =
        { normal := false, whistle := false, finish := false, clap := false } ∧
      pyAnd (pyShr 2 1) 1 = 1 ∧
      Osu.create_effects 8 = { kiai_time := false, bar_line := false } ∧
      pyAnd (pyShr 8 3) 1 = 1 := by
  refine ⟨by decide, by decide, by decide, by decide⟩

/-- Claim C2 (settled against the code): the hit-object decoder computes
the combo-colour-skip as `(flag << 4) & 7`, which is zero for EVERY flag;
on the line `256,192,1000,17,0` (flag 17 = circle bit + skip-count 1,
`(17 >> 4) & 7 = 1`) it stores `combo_to_skip = 0`; and on a mask with
two type bits set (flag 3) the decoder raises `ValueError` instead of
reporting the subset {circle, slider}. -/
theorem claim_C2 :
    Osu.handleHitObjects Osu.Beatmap.init "256,192,1000,17,0".toList =
        .ok { Osu.Beatmap.init with hit_objects :=
          [.circle { x := 256, y := 192, time := 1000, type := .HIT_CIRCLE,
                     hit_sound := { normal := false, whistle := false, finish := false,
                                    clap := false },
                     new_combo := false, combo_to_skip := 0, hit_sample := {} }] } ∧
      pyAnd (pyShr 17 4) 7 = 1 ∧
      Osu.handleHitObjects Osu.Beatmap.init "0,0,0,3,0".toList = .error .valueError := by
  refine ⟨by with_unfolding_all rfl, by decide, by with_unfolding_all rfl⟩

namespace Osu

/-- The uninherited timing point of the C3 scenario: t = 0,
beat_duration = 500. -/
def tpC3a : TimingPoint :=
  { time := 0, meter := 4, sample_set := 0, sample_index := 0, volume := 100,
    uninherited := true, effects := ⟨false, false⟩, beat_duration := 500 }

/-- The inherited timing point of the C3 scenario: t = 1000,
sv_multiplier = 2 (beat_duration still unresolved). -/
def tpC3b : TimingPoint :=
  { time := 1000, meter := 4, sample_set := 0, sample_index := 0, volume := 100,
    uninherited := false, effects := ⟨false, false⟩, sv_multiplier := 2 }

/-- The common fields of the C3 slider: starts at t = 1000. -/
def sliderC3common : HitObjectCommon :=
  { x := 100, y := 100, time := 1000, type := .SLIDER,
    hit_sound := ⟨false, false, false, false⟩, new_combo := false,
    combo_to_skip := 0, hit_sample := {} }

/-- The C3 slider before resolution: slides = 2, length = 350. -/
def sliderC3 : HitObject :=
  .slider sliderC3common
    { curves := [], slides := 2, length := 350, edge_sounds := [], edge_sets := [] }

/-- The C3 beatmap: the two timing points, the slider, and
slider_multiplier = 1.4. -/
def bC3 : Beatmap :=
  { difficulty := { slider_multiplier := 14 / 10 },
    timing_points := [tpC3a, tpC3b],
    hit_objects := [sliderC3] }

/-- The inherited timing point after pass A: beat_duration = 500 copied
from the preceding uninherited point. -/
def tpC3b' : TimingPoint := { tpC3b with beat_duration := 500 }

/-- The C3 slider after resolution: bound to the second timing point,
duration = 500·2·350 / (2·100·1.4) = 1250, end_time = 2250. -/
def sliderC3' : HitObject :=
  .slider sliderC3common
    { curves := [], slides := 2, length := 350, edge_sounds := [], edge_sets := [],
      end_time := 2250, duration := 1250, timing_point := some tpC3b' }

/-- The fully resolved C3 beatmap. -/
def bC3' : Beatmap :=
  { bC3 with timing_points := [tpC3a, tpC3b'], hit_objects := [sliderC3'] }

end Osu

/-- Claim C3: with sorted timing points [(t=0, uninherited,
beat_duration=500), (t=1000, inherited, sv_multiplier=2)] and
slider_multiplier = 1.4, the resolver binds the slider at t = 1000
(slides = 2, length = 350) to the second timing point — the last point
whose time ≤ the slider's start — and sets duration = 1250 and
end_time = 2250. -/
theorem claim_C3 :
    Osu.populate_slider_properties (Osu.populate_timing_point_properties Osu.bC3) =
      .ok Osu.bC3' := by
  with_unfolding_all rfl

namespace Osu

/-- An inherited timing point at t = 0 for the C4 scenario (no
uninherited point exists anywhere). -/
def tpC4a : TimingPoint :=
  { time := 0, meter := 4, sample_set := 0, sample_index := 0, volume := 100,
    uninherited := false, effects := ⟨false, false⟩ }

/-- A second inherited timing point at t = 1 for the C4 scenario. -/
def tpC4b : TimingPoint :=
  { time := 1, meter := 4, sample_set := 0, sample_index := 0, volume := 100,
    uninherited := false, effects := ⟨false, false⟩ }

/-- The common fields of the C4 slider (starts at t = 5). -/
def sliderC4common : HitObjectCommon :=
  { x := 0, y := 0, time := 5, type := .SLIDER,
    hit_sound := ⟨false, false, false, false⟩, new_combo := false,
    combo_to_skip := 0, hit_sample := {} }

/-- The C4 slider before resolution: slides = 1, length = 100. -/
def sliderC4 : HitObject :=
  .slider sliderC4common
    { curves := [], slides := 1, length := 100, edge_sounds := [], edge_sets := [] }

/-- The C4 beatmap: only inherited timing points, one slider,
slider_multiplier = 1. -/
def bC4 : Beatmap :=
  { difficulty := { slider_multiplier := 1 },
    timing_points := [tpC4a, tpC4b],
    hit_objects := [sliderC4] }

/-- The C4 slider after resolution: beat_duration silently defaulted to
0, so duration = 0 and end_time = start time. -/
def sliderC4' : HitObject :=
  .slider sliderC4common
    { curves := [], slides := 1, length := 100, edge_sounds := [], edge_sets := [],
      end_time := 5, duration := 0, timing_point := some tpC4b }

/-- The C4 beatmap after the resolver ran without any complaint. -/
def bC4' : Beatmap := { bC4 with hit_objects := [sliderC4'] }

end Osu

/-- Claim C4 (settled against the code): with an EMPTY timing-point list
the resolver raises `IndexError` (an index-out-of-range, not a
`MissingContextError` — no such error class exists in the source); and
with no uninherited timing point anywhere it does not fail at all: the
slider's duration is silently resolved from the defaulted
`last_beat_duration = 0` to 0. -/
theorem claim_C4 :
    Osu.populate_slider_properties Osu.Beatmap.init = .error .indexError ∧
      Osu.populate_slider_properties (Osu.populate_timing_point_properties Osu.bC4) =
        .ok Osu.bC4' := by
  refine ⟨by with_unfolding_all rfl, by with_unfolding_all rfl⟩

/-- Claim C7 (settled against the code): a data line arriving before any
section header is SILENTLY SKIPPED, not rejected — the router's
`if`/`elif` chain simply has no branch for `section = None`, so the parse
state after the line equals the initial state and no error of any kind is
raised. -/
theorem claim_C7 :
    Osu.parseLines ["AudioFilename: audio.mp3".toList] =
      .ok ((none : Option Osu.Section), Osu.Beatmap.init) := by
  with_unfolding_all rfl

/-- Claim C5, counterexample: with the hit object at (100,100) and the
descriptor anchors [(100,100), (200,200)], the position-prepended
sequence [(100,100), (100,100), (200,200)] contains a point equal to its
immediate predecessor, so the claimed rule demands the two segments
[[(100,100)], [(100,100), (200,200)]]; the code instead emits ONE segment
holding all three points, because the duplicate comparison starts from
the sentinel (-1,-1) and never compares against the prepended position. -/
theorem claim_C5_counterexample :
    Osu.segment_bezier (100, 100) [(100, 100), (200, 200)] =
        [{ curve_type := .BEZIER, curve_points := [(100, 100), (100, 100), (200, 200)] }] ∧
      Osu.segment_bezier (100, 100) [(100, 100), (200, 200)] ≠
        [{ curve_type := .BEZIER, curve_points := [(100, 100)] },
         { curve_type := .BEZIER, curve_points := [(100, 100), (200, 200)] }] := by
  refine ⟨by with_unfolding_all rfl, by decide⟩

/-- Claim C5 as amended: the scan compares only the descriptor's own
anchors, with the previous point seeded by the sentinel (-1,-1) — the
prepended hit-object position is never compared; a new segment starts at
each anchor componentwise-equal to the immediately preceding anchor (or
at a first anchor equal to the sentinel), the duplicate becoming the
first point of the new segment; the position is prepended to the first
segment only, and one Curve per segment is emitted in encounter order
(`adjBlocks` is exactly that specification in direct-recursion form). -/
theorem claim_C5_amended (pos : Int × Int) (pts : List (Int × Int)) :
    Osu.segment_bezier pos pts =
      (mapHead (pos :: ·) (Osu.adjBlocks (-1, -1) pts)).map
        (fun ps => { curve_type := .BEZIER, curve_points := ps }) := by
  unfold Osu.segment_bezier
  have := Osu.bezier_loop pts [] [pos] (-1, -1)
  simpa using this

/-- Claim C6, counterexample: a General-section line whose value contains
a colon does NOT parse with the value split at the first colon — the
General decoder splits on every colon and unpacks into exactly two names,
so `SkinPreference: a:b` raises `ValueError` instead of storing `a:b`. -/
theorem claim_C6_counterexample :
    Osu.processLine (some .GENERAL, Osu.Beatmap.init) "SkinPreference: a:b".toList =
      .error .valueError := by
  with_unfolding_all rfl

/-- Claim C6 as amended: only Metadata lines are split on the first colon
with both sides trimmed, tolerating colons inside the value (a Title line
with any value `v` yields `title = strip v`); General, Editor and
Difficulty lines are split on every colon and fail with `ValueError`
unless the line contains exactly one colon. -/
theorem claim_C6_amended :
    (∀ (b : Osu.Beatmap) (v : List Char),
      Osu.processLine (some .METADATA, b) ("Title:".toList ++ v) =
        .ok (some .METADATA,
          { b with metadata := { b.metadata with title := pyStrip v } })) ∧
      (∀ (b : Osu.Beatmap) (line : List Char), pyRstrip line ≠ [] →
        (pyRstrip line).head? ≠ some '[' → line.count ':' ≠ 1 →
        Osu.processLine (some .GENERAL, b) line = .error .valueError) ∧
      (∀ (b : Osu.Beatmap) (line : List Char), pyRstrip line ≠ [] →
        (pyRstrip line).head? ≠ some '[' → line.count ':' ≠ 1 →
        Osu.processLine (some .EDITOR, b) line = .error .valueError) ∧
      (∀ (b : Osu.Beatmap) (line : List Char), pyRstrip line ≠ [] →
        (pyRstrip line).head? ≠ some '[' → line.count ':' ≠ 1 →
        Osu.processLine (some .DIFFICULTY, b) line = .error .valueError) :=
  ⟨Osu.metadata_title_first_colon, Osu.general_needs_one_colon,
    Osu.editor_needs_one_colon, Osu.difficulty_needs_one_colon⟩

/-- Witness for claim C6: `Title: Song: Subtitle` parses to
`title = "Song: Subtitle"`, and a two-colon General line fails. -/
theorem claim_C6_witness :
    Osu.processLine (some .METADATA, Osu.Beatmap.init) "Title: Song: Subtitle".toList =
        .ok (some .METADATA,
          { Osu.Beatmap.init with metadata :=
            { Osu.Beatmap.init.metadata with title := "Song: Subtitle".toList } }) ∧
      Osu.processLine (some .GENERAL, Osu.Beatmap.init) "AudioHash: ab:cd".toList =
        .error .valueError := by
  constructor
  · exact claim_C6_amended.1 Osu.Beatmap.init " Song: Subtitle".toList
  · exact claim_C6_amended.2.1 Osu.Beatmap.init "AudioHash: ab:cd".toList
      (by decide) (by decide) (by decide)

namespace Osu

lemma processLine_hitobjects (b : Beatmap) (rawLine : List Char)
    (h0 : pyRstrip rawLine ≠ []) (h1 : (pyRstrip rawLine).head? ≠ some '[') :
    processLine (some .HIT_OBJECTS, b) rawLine =
      (fun b' => ((some Section.HIT_OBJECTS : Option Section), b')) <$>
        handleHitObjects b (pyRstrip rawLine) := by
  unfold processLine
  dsimp only
  rw [if_neg (by simpa [List.length_eq_zero] using h0), if_neg h1]

end Osu

/-- Claim C8: any HitObjects line whose comma-separated fields begin with
five tokens whose position/time/hit-sound tokens parse as ints and whose
type-flag token parses as 128 (hold note) is processed without any error
and leaves the router state AND the entire beatmap — hit-object list
included — unchanged. -/
theorem claim_C8 (b : Osu.Beatmap) (line : List Char)
    (h1 : (pyRstrip line).head? ≠ some '[')
    (xs ys ts fs hs : List Char) (params : List (List Char))
    (hsplit : pySplitAll ',' (pyRstrip line) = xs :: ys :: ts :: fs :: hs :: params)
    (xv yv tv hv : Int)
    (hx : pyInt xs = .ok xv) (hy : pyInt ys = .ok yv) (ht : pyInt ts = .ok tv)
    (hf : pyInt fs = .ok 128) (hh : pyInt hs = .ok hv) :
    Osu.processLine (some .HIT_OBJECTS, b) line = .ok (some .HIT_OBJECTS, b) := by
  have h0 : pyRstrip line ≠ [] := by
    intro hnil
    rw [hnil] at hsplit
    exact absurd hsplit (by simp [pySplitAll])
  rw [Osu.processLine_hitobjects b line h0 h1]
  unfold Osu.handleHitObjects
  rw [hsplit]
  simp only [hx, hy, ht, hf, hh]
  rfl

/-- Witness for claim C8: the concrete mania hold-note line
`256,192,1000,128,0,2000:0:0:0:0:` leaves the initial state untouched. -/
theorem claim_C8_witness :
    Osu.processLine (some .HIT_OBJECTS, Osu.Beatmap.init)
        "256,192,1000,128,0,2000:0:0:0:0:".toList =
      .ok (some .HIT_OBJECTS, Osu.Beatmap.init) := by
  exact claim_C8 Osu.Beatmap.init "256,192,1000,128,0,2000:0:0:0:0:".toList
    (by decide)
    "256".toList "192".toList "1000".toList "128".toList "0".toList
    ["2000:0:0:0:0:".toList]
    (by decide)
    256 192 1000 0
    (by with_unfolding_all rfl) (by with_unfolding_all rfl)
    (by with_unfolding_all rfl) (by with_unfolding_all rfl)
    (by with_unfolding_all rfl)

/-! ## Relating the two implementations (claim C9) -/

/-- Field renaming from `main.py`'s on-disk-styled metadata to
`beatmap.py`'s snake_cased metadata. -/
def renameMetadata (z : OsuMain.Metadata) : Osu.Metadata :=
  { title := z.Title, title_unicode := z.TitleUnicode, artist := z.Artist,
    artist_unicode := z.ArtistUnicode, creator := z.Creator, version := z.Version,
    source := z.Source, tags := z.Tags, beatmap_id := z.BeatmapID,
    beatmap_set_id := z.BeatmapSetID }

/-- Field renaming for the hit-sound decoders (the field names coincide). -/
def renameHitSound (z : OsuMain.HitSound) : Osu.HitSound :=
  { normal := z.normal, whistle := z.whistle, finish := z.finish, clap := z.clap }

/-- Field renaming for the effects decoders. -/
def renameEffects (z : OsuMain.Effects) : Osu.Effects :=
  { kiai_time := z.KiaiTime, bar_line := z.BarLine }

lemma renameMetadata_Title (z : OsuMain.Metadata) (v : List Char) :
    renameMetadata { z with Title := v } = { renameMetadata z with title := v } := rfl

lemma renameMetadata_TitleUnicode (z : OsuMain.Metadata) (v : List Char) :
    renameMetadata { z with TitleUnicode := v } =
      { renameMetadata z with title_unicode := v } := rfl

lemma renameMetadata_Artist (z : OsuMain.Metadata) (v : List Char) :
    renameMetadata { z with Artist := v } = { renameMetadata z with artist := v } := rfl

lemma renameMetadata_ArtistUnicode (z : OsuMain.Metadata) (v : List Char) :
    renameMetadata { z with ArtistUnicode := v } =
      { renameMetadata z with artist_unicode := v } := rfl

lemma renameMetadata_Creator (z : OsuMain.Metadata) (v : List Char) :
    renameMetadata { z with Creator := v } = { renameMetadata z with creator := v } := rfl

lemma renameMetadata_Version (z : OsuMain.Metadata) (v : List Char) :
    renameMetadata { z with Version := v } = { renameMetadata z with version := v } := rfl

lemma renameMetadata_Source (z : OsuMain.Metadata) (v : List Char) :
    renameMetadata { z with Source := v } = { renameMetadata z with source := v } := rfl

lemma renameMetadata_Tags (z : OsuMain.Metadata) (v : List (List Char)) :
    renameMetadata { z with Tags := v } = { renameMetadata z with tags := v } := rfl

lemma renameMetadata_BeatmapID (z : OsuMain.Metadata) (v : Int) :
    renameMetadata { z with BeatmapID := v } =
      { renameMetadata z with beatmap_id := v } := rfl

lemma renameMetadata_BeatmapSetID (z : OsuMain.Metadata) (v : Int) :
    renameMetadata { z with BeatmapSetID := v } =
      { renameMetadata z with beatmap_set_id := v } := rfl

lemma metadataStep_sim (m : OsuMain.Metadata) (key value : List Char) :
    Except.map renameMetadata (OsuMain.metadataStep m key value) =
      Osu.metadataStep (renameMetadata m) key value := by
  unfold OsuMain.metadataStep Osu.metadataStep
  by_cases h1 : key = "Title".toList
  · subst h1; rfl
  by_cases h2 : key = "TitleUnicode".toList
  · subst h2; rfl
  by_cases h3 : key = "Artist".toList
  · subst h3; rfl
  by_cases h4 : key = "ArtistUnicode".toList
  · subst h4; rfl
  by_cases h5 : key = "Creator".toList
  · subst h5; rfl
  by_cases h6 : key = "Version".toList
  · subst h6; rfl
  by_cases h7 : key = "Source".toList
  · subst h7; rfl
  by_cases h8 : key = "Tags".toList
  · subst h8; rfl
  by_cases h9 : key = "BeatmapID".toList
  · subst h9
    cases hv : pyInt value with
    | error e => simp only [hv]; rfl
    | ok v => simp only [hv]; rfl
  by_cases h10 : key = "BeatmapSetID".toList
  · subst h10
    cases hv : pyInt value with
    | error e => simp only [hv]; rfl
    | ok v => simp only [hv]; rfl
  simp only [if_neg h1, if_neg h2, if_neg h3, if_neg h4, if_neg h5, if_neg h6,
    if_neg h7, if_neg h8, if_neg h9, if_neg h10]
  rfl

/-- The C9 divergence input: a single uninherited timing point and
nothing else. -/
def c9lines : List (List Char) :=
  ["[TimingPoints]".toList, "0,500,4,2,0,100,1,0".toList]

/-- The beatmap `main.py` produces for `c9lines`. -/
def c9mainResult : OsuMain.Beatmap :=
  { timingPoints := [.uninherited
      { time := 0, meter := 4, sampleSet := 2, sampleIndex := 0, volume := 100,
        uninherited := true, effects := ⟨false, false⟩ } 500] }

/-- Claim C9, counterexample: on the one-timing-point input `c9lines`,
`main.py`'s `load` succeeds (producing one uninherited timing point)
while `beatmap.py`'s `load` raises `IndexError` — so it is false that on
every input on which either succeeds both produce structurally equal
models after renaming. -/
theorem claim_C9_counterexample :
    OsuMain.load c9lines = .ok c9mainResult ∧
      Osu.load c9lines = .error .indexError := by
  refine ⟨by with_unfolding_all rfl, by with_unfolding_all rfl⟩

/-- Claim C9 as amended: the two implementations are NOT equivalent as
wholes — `main.py` performs no timing-point/slider resolution, so the
one-timing-point input `c9lines` loads under `main.py` while
`beatmap.py`'s `load` raises `IndexError`; what does correspond up to
field renaming is the per-line section decoding, here witnessed by the
Metadata section decoders and the hit-sound/effects bit-flag decoders. -/
theorem claim_C9_amended :
    (∀ (m : OsuMain.Metadata) (key value : List Char),
      Except.map renameMetadata (OsuMain.metadataStep m key value) =
        Osu.metadataStep (renameMetadata m) key value) ∧
      (∀ x : Int, renameHitSound (OsuMain.create_hit_sound x) = Osu.create_hit_sound x) ∧
      (∀ x : Int, renameEffects (OsuMain.create_effects x) = Osu.create_effects x) ∧
      OsuMain.load c9lines = .ok c9mainResult ∧
      Osu.load c9lines = .error .indexError := by
  exact ⟨metadataStep_sim, fun x => rfl, fun x => rfl,
    by with_unfolding_all rfl, by with_unfolding_all rfl⟩
